import Mathlib

/-!
Shallow embedding of the order-processing core and the payment /
notification adapter layer of the `go-boilerplate` repository
(`internal/usecase/order`, `internal/provider/payment`,
`internal/provider/notification`, `internal/domain/entity`,
`internal/repository`, `pkg/errors`).

Conventions of the embedding:
* Go `float64` values are modelled as exact rational numbers (`Frac`);
  `toDouble` rounds an arbitrary rational to the nearest IEEE-754 binary64
  value (round-to-nearest, ties-to-even).  Overflow and subnormals never
  arise at the magnitudes this code handles and are not modelled.
* Go `time.Time` is modelled as integer Unix seconds; `time.Now()` becomes
  an explicit `now` parameter.
* Decoded JSON (Go `map[string]interface{}` after `json.Decode`) is an
  association list of `JValue`; a Go type assertion `x.(T)` is an
  `assert...` function returning `GoResult`, whose `panics` constructor
  models a runtime panic (which is not a returned `error`).
* Go `error` values are `GoErr`; `fmt.Errorf("...: %w", err)` is
  `GoErr.wrap` and `errors.Is(err, ErrUserNotFound)` is `isUserNotFound`,
  which unwraps through wrapping like `errors.Is` does.
* Interface-typed collaborators (user repository, payment provider,
  notification provider) are records of functions.  A goroutine spawn
  (`go u.sendPaymentFailureNotification(...)` etc.) is recorded as an
  event in a returned trace: the spawned body runs detached on a fresh
  background context and can never influence the caller's result.
-/

/-! ## Exact rational arithmetic on a kernel-computable fraction type -/

/-- A rational number as a normalized numerator/denominator pair.  All
operations keep the denominator positive and the fraction reduced, so
structural equality is value equality for anything built by `Frac.norm`. -/
structure Frac where
  num : ℤ
  den : ℕ
deriving DecidableEq

/-- Build the reduced fraction `n / d`. -/
def Frac.norm (n : ℤ) (d : ℕ) : Frac :=
  if d = 0 then ⟨0, 1⟩
  else
    let g := Nat.gcd n.natAbs d
    ⟨Int.sign n * ((n.natAbs / g : ℕ) : ℤ), d / g⟩

def Frac.ofInt (n : ℤ) : Frac := ⟨n, 1⟩

def Frac.mul (a b : Frac) : Frac := Frac.norm (a.num * b.num) (a.den * b.den)

def Frac.div (a b : Frac) : Frac :=
  Frac.norm (a.num * (b.den : ℤ) * Int.sign b.num) (a.den * b.num.natAbs)

def Frac.neg (a : Frac) : Frac := ⟨-a.num, a.den⟩

/-- Truncation toward zero, the semantics of Go conversions `int(x)` and
`int64(x)` from `float64`. -/
def Frac.trunc (a : Frac) : ℤ :=
  Int.sign a.num * ((a.num.natAbs / a.den : ℕ) : ℤ)

/-! ## IEEE-754 binary64 rounding (Go float64) -/

/-- Fuel-driven floor of the base-2 logarithm (the fuel makes the
recursion structural, hence kernel-computable). -/
def natLog2F : ℕ → ℕ → ℕ
  | 0, _ => 0
  | fuel + 1, n => if n < 2 then 0 else natLog2F fuel (n / 2) + 1

def natLog2 (n : ℕ) : ℕ := natLog2F n n

/-- `pow2LE c n d` decides `2^c ≤ n/d` for naturals `n d` (`d > 0`) and an
integer `c`, using only integer arithmetic. -/
def pow2LE (c : ℤ) (n d : ℕ) : Bool :=
  if 0 ≤ c then decide (d * 2 ^ c.toNat ≤ n) else decide (d ≤ n * 2 ^ (-c).toNat)

/-- Floor of the base-2 logarithm of the positive rational `n/d`. -/
def floorLog2Q (n d : ℕ) : ℤ :=
  let c : ℤ := (natLog2 n : ℤ) - (natLog2 d : ℤ)
  if pow2LE (c + 1) n d then c + 1 else if pow2LE c n d then c else c - 1

/-- Round the nonnegative rational `N/D` (`D > 0`) to the nearest natural
number, ties to even. -/
def roundRatNE (N D : ℕ) : ℕ :=
  let q := N / D
  let r := N % D
  if 2 * r < D then q
  else if D < 2 * r then q + 1
  else if q % 2 = 0 then q else q + 1

/-- Round a rational to the nearest IEEE-754 binary64 value (53-bit
significand, round-to-nearest, ties-to-even), returned as the exact
rational that binary64 datum denotes. -/
def toDouble (x : Frac) : Frac :=
  if x.num = 0 then ⟨0, 1⟩
  else
    let n := x.num.natAbs
    let d := x.den
    let e : ℤ := floorLog2Q n d - 52
    let m : ℕ :=
      if 0 ≤ e then roundRatNE n (d * 2 ^ e.toNat)
      else roundRatNE (n * 2 ^ (-e).toNat) d
    let mag : Frac :=
      if 0 ≤ e then ⟨(m : ℤ) * 2 ^ e.toNat, 1⟩ else Frac.norm (m : ℤ) (2 ^ (-e).toNat)
    if x.num < 0 then Frac.neg mag else mag

/-- Go float64 multiplication: exact product, then binary64 rounding. -/
def f64mul (a b : Frac) : Frac := toDouble (Frac.mul a b)

/-- Go float64 division: exact quotient, then binary64 rounding. -/
def f64div (a b : Frac) : Frac := toDouble (Frac.div a b)

/-- The float64 a Go program holds for the decimal literal `n/d`
(as produced by JSON decoding or a Go constant conversion): the nearest
binary64 value. -/
def goFloatLit (n d : ℕ) : Frac := toDouble (Frac.norm (n : ℤ) d)

/-! ## Go errors (`pkg/errors` and `fmt.Errorf` wrapping) -/

/-- Go `error` values as this code base builds them: the sentinel
`errors.ErrUserNotFound`, a plain `errors.New`/`fmt.Errorf` message, or a
`fmt.Errorf("msg: %w", inner)` wrapper. -/
inductive GoErr where
  | userNotFound
  | errMsg (msg : String)
  | wrap (msg : String) (inner : GoErr)
deriving DecidableEq

/-- `errors.IsUserNotFound` from `pkg/errors`: `errors.Is` unwraps through
`%w` wrapping down to the sentinel. -/
def isUserNotFound : GoErr → Bool
  | .userNotFound => true
  | .errMsg _ => false
  | .wrap _ e => isUserNotFound e

/-- The string `err.Error()` produces: `fmt.Errorf("%s: %w", ...)` chains
render as `msg: inner`. -/
def goErrString : GoErr → String
  | .userNotFound => "user not found"
  | .errMsg m => m
  | .wrap m e => m ++ ": " ++ goErrString e

/-! ## Decoded JSON values and Go type assertions -/

/-- A decoded JSON value as Go `encoding/json` produces it into
`interface{}` (numbers decode to float64, objects to
`map[string]interface{}`). -/
inductive JValue where
  | null
  | jbool (b : Bool)
  | num (x : Frac)
  | str (s : String)
  | arr (elems : List JValue)
  | obj (fields : List (String × JValue))

/-- A decoded `map[string]interface{}`. -/
abbrev JObject := List (String × JValue)

/-- Go map indexing `m["k"]` (missing key yields the nil interface). -/
def jlookup (m : JObject) (k : String) : Option JValue :=
  (m.find? (fun kv => kv.1 == k)).map (fun kv => kv.2)

/-- The outcome of a Go function that returns `(T, error)` but may also
panic at runtime (e.g. on a failed type assertion or an out-of-range
index): `panics` is not a returned error. -/
inductive GoResult (α : Type) where
  | ok (a : α)
  | err (e : GoErr)
  | panics (msg : String)

def GoResult.bind {α β : Type} : GoResult α → (α → GoResult β) → GoResult β
  | .ok a, f => f a
  | .err e, _ => .err e
  | .panics m, _ => .panics m

def GoResult.isErr {α : Type} : GoResult α → Bool
  | .err _ => true
  | _ => false

def GoResult.isPanics {α : Type} : GoResult α → Bool
  | .panics _ => true
  | _ => false

def GoResult.isOk {α : Type} : GoResult α → Bool
  | .ok _ => true
  | _ => false

/-- Go type assertion `v.(string)` on a (possibly nil) interface value:
panics unless the dynamic type is string. -/
def assertString : Option JValue → GoResult String
  | some (.str s) => .ok s
  | _ => .panics "interface conversion: interface is not string"

/-- Go type assertion `v.(float64)`. -/
def assertNumber : Option JValue → GoResult Frac
  | some (.num x) => .ok x
  | _ => .panics "interface conversion: interface is not float64"

/-- Go type assertion `v.([]interface{})`. -/
def assertArray : Option JValue → GoResult (List JValue)
  | some (.arr xs) => .ok xs
  | _ => .panics "interface conversion: interface is not a slice"

/-- Go type assertion `v.(map[string]interface{})` on an in-hand value. -/
def assertObjectV : JValue → GoResult JObject
  | .obj o => .ok o
  | _ => .panics "interface conversion: interface is not a map"

/-- Go type assertion `v.(map[string]interface{})` on a map lookup. -/
def assertObject : Option JValue → GoResult JObject
  | some (.obj o) => .ok o
  | _ => .panics "interface conversion: interface is not a map"

/-- Go slice indexing `xs[i]`: panics when out of range. -/
def indexArray (xs : List JValue) (i : ℕ) : GoResult JValue :=
  match xs.get? i with
  | some v => .ok v
  | none => .panics "runtime error: index out of range"

/-! ## Domain entities (`internal/domain/entity`) -/

/-- `entity.User`.  The `Password` field carries the json tag `"-"` in the
source; the serializer below honours the tags. -/
structure User where
  ID : ℤ
  Username : String
  Email : String
  Password : String
  CreatedAt : ℤ
  UpdatedAt : ℤ
deriving DecidableEq

structure PaymentRequest where
  OrderID : String
  Amount : Frac
  Currency : String
  Description : String
  CustomerID : String
  Metadata : JObject

structure PaymentResponse where
  ID : String
  Status : String
  Amount : Frac
  Currency : String
  TransactionID : String
  CreatedAt : ℤ
  Metadata : Option JObject

structure RefundResponse where
  ID : String
  PaymentID : String
  Amount : Frac
  Status : String
  CreatedAt : ℤ

structure PaymentIntentRequest where
  Amount : Frac
  Currency : String
  CustomerID : String
  Description : String

structure PaymentIntent where
  ID : String
  ClientSecret : String
  Status : String

structure EmailRequest where
  To : List String
  CC : List String
  BCC : List String
  Subject : String
  Body : String
  BodyHTML : String
  Metadata : JObject

structure EmailResponse where
  ID : String
  Status : String
  SentAt : ℤ
  MessageID : String

structure SMSRequest where
  To : String
  Message : String
  From : String

structure SMSResponse where
  ID : String
  Status : String
  SentAt : ℤ
  MessageID : String

structure PushNotificationRequest where
  DeviceTokens : List String
  Title : String
  Body : String
  Data : JObject

structure PushNotificationResponse where
  ID : String
  Status : String
  SentAt : ℤ
  SuccessCount : ℤ
  FailureCount : ℤ

structure CreateOrderRequest where
  OrderID : String
  UserID : ℤ
  Amount : Frac
  Currency : String
  UserEmail : String

structure OrderResponse where
  OrderID : String
  PaymentID : String
  PaymentIntentID : String
  Status : String
  Amount : Frac
  Currency : String
  ProcessedAt : ℤ
  User : User

structure RefundOrderRequest where
  PaymentID : String
  UserID : ℤ
  Reason : String

/-! ## Stripe-style adapter (`internal/provider/payment`, StripeProvider) -/

/-- The integer `int(req.Amount * 100)` the Stripe adapter puts in the
`amount` field of the charge payload ("Convert to cents"): float64
multiplication followed by Go integer-conversion truncation. -/
def stripeWireAmount (amount : Frac) : ℤ :=
  Frac.trunc (f64mul amount (Frac.ofInt 100))

/-- The JSON payload `StripeProvider.ProcessPayment` sends to
`POST /charges` (the `customer` key is added only for a nonempty
customer id). -/
def stripeChargePayload (req : PaymentRequest) : JObject :=
  let base : JObject :=
    [("amount", JValue.num (Frac.ofInt (stripeWireAmount req.Amount))),
     ("currency", JValue.str req.Currency),
     ("description", JValue.str req.Description),
     ("metadata", JValue.obj req.Metadata)]
  if req.CustomerID ≠ "" then base ++ [("customer", JValue.str req.CustomerID)] else base

/-- `StripeProvider.parsePaymentResponse`: decode failure is a returned
(wrapped) error; a non-200 status is a returned error; after that every
required field is read through an unchecked type assertion.  `decoded` is
`none` when `json.Decode` fails, otherwise the decoded top-level map. -/
def parsePaymentResponse (statusCode : ℕ) (decoded : Option JObject) :
    GoResult PaymentResponse :=
  match decoded with
  | none => .err (.wrap "stripe parse_response_failed" (.errMsg "json decode failed"))
  | some m =>
    if statusCode ≠ 200 then
      .err (.wrap "stripe api_error" (.errMsg ("stripe API error: " ++ toString statusCode)))
    else
      (assertString (jlookup m "id")).bind fun id =>
      (assertString (jlookup m "status")).bind fun status =>
      (assertNumber (jlookup m "amount")).bind fun amt =>
      (assertString (jlookup m "currency")).bind fun currency =>
      (assertString (jlookup m "balance_transaction")).bind fun txn =>
      (assertNumber (jlookup m "created")).bind fun created =>
      .ok { ID := id
            Status := status
            Amount := f64div amt (Frac.ofInt 100)
            Currency := currency
            TransactionID := txn
            CreatedAt := Frac.trunc created
            Metadata :=
              match jlookup m "metadata" with
              | some (.obj o) => some o
              | _ => none }

/-- The round-trip the spec describes for the Stripe-style adapter: the
wire amount comes back as a JSON number (an exactly-represented float64
integer) and is divided by 100. -/
def stripeRoundTripAmount (amount : Frac) : Frac :=
  f64div (Frac.ofInt (stripeWireAmount amount)) (Frac.ofInt 100)

/-- A minimal successful vendor body for `POST /charges` echoing the wire
amount, used to evaluate the parser on concrete inputs. -/
def stripeEchoBody (wire : ℤ) : JObject :=
  [("id", JValue.str "ch_1"),
   ("status", JValue.str "succeeded"),
   ("amount", JValue.num (Frac.ofInt wire)),
   ("currency", JValue.str "usd"),
   ("balance_transaction", JValue.str "txn_1"),
   ("created", JValue.num (Frac.ofInt 1700000000))]

/-- Amount of a parsed payment response, when parsing succeeded. -/
def parsedAmount (r : GoResult PaymentResponse) : Option Frac :=
  match r with
  | .ok p => some p.Amount
  | _ => none

/-! ## PayPal-style adapter (`internal/provider/payment`, PayPalProvider) -/

def natOfDigits (ds : List Char) : ℕ :=
  ds.foldl (fun a c => a * 10 + (c.toNat - 48)) 0

/-- `parseFloat` from the source: `fmt.Sscanf(s, "%f", &f)`, modelled on
decimal inputs of the form `[-]digits[.digits]` (the only shapes the
vendor contract produces); anything after the scanned prefix is ignored
and an unscannable string leaves the zero value. The scanned decimal is
converted to the nearest float64. -/
def goParseFloat (s : String) : Frac :=
  let cs := s.toList
  let neg := cs.head? = some '-'
  let cs2 := if neg then cs.tail else cs
  let ip := cs2.takeWhile Char.isDigit
  let rest := cs2.dropWhile Char.isDigit
  let fp :=
    match rest with
    | '.' :: r => r.takeWhile Char.isDigit
    | _ => []
  let n : ℕ := natOfDigits ip * 10 ^ fp.length + natOfDigits fp
  let mag := toDouble (Frac.norm (n : ℤ) (10 ^ fp.length))
  if neg then Frac.neg mag else mag

def padTwo (n : ℕ) : String :=
  if n < 10 then "0" ++ toString n else toString n

/-- Go `fmt.Sprintf("%.2f", x)` on a float64: the exact binary64 value
rounded to two decimal places (ties to even) and rendered. -/
def goFormat2f (x : Frac) : String :=
  let scaled := roundRatNE (x.num.natAbs * 100) x.den
  (if x.num < 0 then "-" else "") ++ toString (scaled / 100) ++ "." ++ padTwo (scaled % 100)

/-- `PayPalProvider.parseCaptureResponse`: decode failure and a non-201
status are returned errors; after that the nested
`purchase_units[0].payments.captures[0].amount` path is read through
unchecked type assertions and indexing, each of which panics when the
field is absent, of the wrong type, or the array is empty.  `now` models
`time.Now()` in the `CreatedAt` field. -/
def parseCaptureResponse (now : ℤ) (statusCode : ℕ) (decoded : Option JObject) :
    GoResult PaymentResponse :=
  match decoded with
  | none => .err (.wrap "paypal parse_capture_response_failed" (.errMsg "json decode failed"))
  | some m =>
    if statusCode ≠ 201 then
      .err (.wrap "paypal api_error" (.errMsg ("paypal API error: " ++ toString statusCode)))
    else
      (assertArray (jlookup m "purchase_units")).bind fun purchaseUnits =>
      (indexArray purchaseUnits 0).bind fun firstRaw =>
      (assertObjectV firstRaw).bind fun firstUnit =>
      (assertObject (jlookup firstUnit "payments")).bind fun payments =>
      (assertArray (jlookup payments "captures")).bind fun captures =>
      (indexArray captures 0).bind fun captureRaw =>
      (assertObjectV captureRaw).bind fun capture =>
      (assertObject (jlookup capture "amount")).bind fun amount =>
      (assertString (jlookup capture "id")).bind fun id =>
      (assertString (jlookup capture "status")).bind fun status =>
      (assertString (jlookup amount "value")).bind fun value =>
      (assertString (jlookup amount "currency_code")).bind fun currencyCode =>
      (assertString (jlookup m "id")).bind fun topID =>
      .ok { ID := id
            Status := status
            Amount := goParseFloat value
            Currency := currencyCode
            TransactionID := topID
            CreatedAt := now
            Metadata := none }

/-! ## PayPal OAuth token cache
(`PayPalProvider.ensureValidToken` / `refreshAccessToken`) -/

/-- The token-relevant mutable fields of `PayPalProvider`. -/
structure PayPalTokenState where
  accessToken : String
  tokenExpiry : ℤ
deriving DecidableEq

/-- A decoded successful `POST /v1/oauth2/token` body (`access_token`,
`expires_in`). -/
structure TokenResponse where
  accessToken : String
  expiresIn : ℤ
deriving DecidableEq

/-- `refreshAccessToken` on a successful token exchange: stores the new
token and sets the expiry 60 seconds before the advertised one
("Refresh 60s before expiry"). -/
def refreshAccessToken (now : ℤ) (resp : TokenResponse) : PayPalTokenState :=
  { accessToken := resp.accessToken, tokenExpiry := now + (resp.expiresIn - 60) }

/-- `ensureValidToken`, called at the start of every PayPal vendor
operation: reuses the cached token while it is nonempty and unexpired
(`time.Now().Before(p.tokenExpiry)`), otherwise refreshes.  The boolean
reports whether a token request was performed. -/
def ensureValidToken (now : ℤ) (resp : TokenResponse) (st : PayPalTokenState) :
    PayPalTokenState × Bool :=
  if st.accessToken ≠ "" ∧ now < st.tokenExpiry then (st, false)
  else (refreshAccessToken now resp, true)

/-! ## Unified notification provider
(`internal/provider/notification`, UnifiedNotificationProvider) -/

/-- A vendor-facing side effect of the notification layer: the per-channel
adapters perform one HTTP call per send; the push channel performs none. -/
inductive NotifEvent where
  | emailVendorCall (req : EmailRequest)
  | smsVendorCall (req : SMSRequest)

/-- The per-channel adapters the unified provider fans out to (the email
and SMS providers are interface-typed collaborators performing the actual
vendor HTTP call). -/
structure NotifDeps where
  emailSend : EmailRequest → GoResult EmailResponse
  smsSend : SMSRequest → GoResult SMSResponse

/-- `UnifiedNotificationProvider.SendEmail`: routes to the email channel
adapter (one vendor call). -/
def unifiedSendEmail (d : NotifDeps) (req : EmailRequest) :
    GoResult EmailResponse × List NotifEvent :=
  (d.emailSend req, [.emailVendorCall req])

/-- `UnifiedNotificationProvider.SendSMS`: routes to the SMS channel
adapter (one vendor call). -/
def unifiedSendSMS (d : NotifDeps) (req : SMSRequest) :
    GoResult SMSResponse × List NotifEvent :=
  (d.smsSend req, [.smsVendorCall req])

/-- `UnifiedNotificationProvider.SendPushNotification`: the
not-yet-implemented stub.  It builds a mock response with zero successes
and all device tokens counted as failures, returns a nil error, and
performs no vendor call. -/
def unifiedSendPushNotification (now : ℤ) (req : PushNotificationRequest) :
    GoResult PushNotificationResponse × List NotifEvent :=
  (.ok { ID := "mock-push-id"
         Status := "not_implemented"
         SentAt := now
         SuccessCount := 0
         FailureCount := (req.DeviceTokens.length : ℤ) }, [])

/-! ## User repository (`internal/repository`, userRepositoryImpl) -/

/-- `userRepositoryImpl.GetByID` over the users table modelled as a list:
`sql.ErrNoRows` on a missing id becomes the sentinel
`errors.ErrUserNotFound`. -/
def repoGetByID (store : List User) (id : ℤ) : GoResult User :=
  match store.find? (fun u => u.ID == id) with
  | some u => .ok u
  | none => .err .userNotFound

/-! ## Order usecase (`internal/usecase/order`, OrderUsecase) -/

/-- The collaborators `OrderUsecase` holds: the user repository, the
Payment capability and the Notification capability.  `sendEmail` is only
ever invoked from detached notification goroutines, never from the
request path. -/
structure OrderDeps where
  getUser : ℤ → GoResult User
  createPaymentIntent : PaymentIntentRequest → GoResult PaymentIntent
  processPayment : PaymentRequest → GoResult PaymentResponse
  refundPayment : String → GoResult RefundResponse
  sendEmail : EmailRequest → GoResult EmailResponse

/-- Externally observable steps of one order/refund request.  The three
`spawn...` events are the `go u.send...Notification(context.Background(), ...)`
statements: each spawn runs one detached best-effort email send. -/
inductive OrderEvent where
  | getUserCall (id : ℤ)
  | createIntentCall (req : PaymentIntentRequest)
  | processPaymentCall (req : PaymentRequest)
  | refundCall (paymentID : String)
  | spawnFailureEmail (req : EmailRequest)
  | spawnConfirmationEmail (req : EmailRequest)
  | spawnRefundEmail (req : EmailRequest)

inductive OrderEventKind where
  | getUser
  | createIntent
  | processPayment
  | refund
  | notifyFailure
  | notifyConfirmation
  | notifyRefund
deriving DecidableEq

def OrderEvent.kind : OrderEvent → OrderEventKind
  | .getUserCall _ => .getUser
  | .createIntentCall _ => .createIntent
  | .processPaymentCall _ => .processPayment
  | .refundCall _ => .refund
  | .spawnFailureEmail _ => .notifyFailure
  | .spawnConfirmationEmail _ => .notifyConfirmation
  | .spawnRefundEmail _ => .notifyRefund

/-- The email `OrderUsecase.sendOrderConfirmationNotification` builds. -/
def orderConfirmationEmail (user : User) (orderID paymentID : String) (amount : Frac) :
    EmailRequest :=
  { To := [user.Email]
    CC := []
    BCC := []
    Subject := "Order Confirmation"
    Body := "\nHello " ++ user.Username ++ ",\n\nYour order has been confirmed!\n\nOrder Details:\n- Order ID: " ++ orderID ++ "\n- Payment ID: " ++ paymentID ++ "\n- Amount: $" ++ goFormat2f amount ++ "\n- Status: Completed\n\nThank you for your business!\n\nBest regards,\nBoilerplate Team\n\t\t"
    BodyHTML := ""
    Metadata := [("user_id", JValue.num (Frac.ofInt user.ID)),
                 ("order_id", JValue.str orderID),
                 ("payment_id", JValue.str paymentID),
                 ("type", JValue.str "order_confirmation")] }

/-- The email `OrderUsecase.sendPaymentFailureNotification` builds. -/
def paymentFailureEmail (user : User) (orderID : String) (paymentErr : GoErr) :
    EmailRequest :=
  { To := [user.Email]
    CC := []
    BCC := []
    Subject := "Payment Failed"
    Body := "\nHello " ++ user.Username ++ ",\n\nWe encountered an issue processing your payment for order " ++ orderID ++ ".\n\nPlease try again or contact our support team.\n\nError: " ++ goErrString paymentErr ++ "\n\nBest regards,\nBoilerplate Team\n\t\t"
    BodyHTML := ""
    Metadata := [("user_id", JValue.num (Frac.ofInt user.ID)),
                 ("order_id", JValue.str orderID),
                 ("type", JValue.str "payment_failure")] }

/-- The email `OrderUsecase.sendRefundNotification` builds. -/
def refundEmail (user : User) (paymentID refundID : String) : EmailRequest :=
  { To := [user.Email]
    CC := []
    BCC := []
    Subject := "Refund Processed"
    Body := "\nHello " ++ user.Username ++ ",\n\nYour refund has been processed successfully.\n\nRefund Details:\n- Original Payment ID: " ++ paymentID ++ "\n- Refund ID: " ++ refundID ++ "\n\nThe refund will appear in your account within 3-5 business days.\n\nBest regards,\nBoilerplate Team\n\t\t"
    BodyHTML := ""
    Metadata := [("user_id", JValue.num (Frac.ofInt user.ID)),
                 ("payment_id", JValue.str paymentID),
                 ("refund_id", JValue.str refundID),
                 ("type", JValue.str "refund_confirmation")] }

/-- Body of the detached goroutine
`OrderUsecase.sendPaymentFailureNotification`: one best-effort email send
whose failure is logged only — the returned unit shows that nothing of the
send outcome escapes. -/
def sendPaymentFailureNotification (d : OrderDeps) (user : User) (orderID : String)
    (paymentErr : GoErr) : Unit :=
  match d.sendEmail (paymentFailureEmail user orderID paymentErr) with
  | _ => ()

/-- Body of the detached goroutine
`OrderUsecase.sendOrderConfirmationNotification`. -/
def sendOrderConfirmationNotification (d : OrderDeps) (user : User)
    (orderID paymentID : String) (amount : Frac) : Unit :=
  match d.sendEmail (orderConfirmationEmail user orderID paymentID amount) with
  | _ => ()

/-- Body of the detached goroutine `OrderUsecase.sendRefundNotification`. -/
def sendRefundNotification (d : OrderDeps) (user : User)
    (paymentID refundID : String) : Unit :=
  match d.sendEmail (refundEmail user paymentID refundID) with
  | _ => ()

/-- `OrderUsecase.ProcessOrder`: user lookup, payment-intent creation,
charge, then either a detached failure email spawn plus a terminal error,
or a detached confirmation email spawn plus a "completed" response.  The
second component is the trace of externally observable steps in program
order.  A collaborator panic unwinds the request before any later step
(no notification spawn is reached).  `now` models `time.Now()`. -/
def processOrder (now : ℤ) (d : OrderDeps) (req : CreateOrderRequest) :
    GoResult OrderResponse × List OrderEvent :=
  match d.getUser req.UserID with
  | .panics m => (.panics m, [.getUserCall req.UserID])
  | .err e =>
      if isUserNotFound e then
        (.err (.wrap "user not found" e), [.getUserCall req.UserID])
      else
        (.err (.wrap "failed to get user" e), [.getUserCall req.UserID])
  | .ok user =>
    let paymentIntentReq : PaymentIntentRequest :=
      { Amount := req.Amount
        Currency := req.Currency
        CustomerID := toString user.ID
        Description := "Order for user " ++ user.Username }
    match d.createPaymentIntent paymentIntentReq with
    | .panics m =>
        (.panics m, [.getUserCall req.UserID, .createIntentCall paymentIntentReq])
    | .err e =>
        (.err (.wrap "failed to create payment intent" e),
         [.getUserCall req.UserID, .createIntentCall paymentIntentReq])
    | .ok paymentIntent =>
      let paymentReq : PaymentRequest :=
        { OrderID := req.OrderID
          Amount := req.Amount
          Currency := req.Currency
          Description := "Order " ++ req.OrderID ++ " for " ++ user.Username
          CustomerID := toString user.ID
          Metadata := [("user_id", JValue.num (Frac.ofInt user.ID)),
                       ("username", JValue.str user.Username),
                       ("order_id", JValue.str req.OrderID)] }
      match d.processPayment paymentReq with
      | .panics m =>
          (.panics m,
           [.getUserCall req.UserID, .createIntentCall paymentIntentReq,
            .processPaymentCall paymentReq])
      | .err e =>
          (.err (.wrap "payment processing failed" e),
           [.getUserCall req.UserID, .createIntentCall paymentIntentReq,
            .processPaymentCall paymentReq,
            .spawnFailureEmail (paymentFailureEmail user req.OrderID e)])
      | .ok payment =>
          (.ok { OrderID := req.OrderID
                 PaymentID := payment.ID
                 PaymentIntentID := paymentIntent.ID
                 Status := "completed"
                 Amount := req.Amount
                 Currency := req.Currency
                 ProcessedAt := now
                 User := user },
           [.getUserCall req.UserID, .createIntentCall paymentIntentReq,
            .processPaymentCall paymentReq,
            .spawnConfirmationEmail
              (orderConfirmationEmail user req.OrderID payment.ID req.Amount)])

/-- `OrderUsecase.RefundOrder`: user lookup, vendor refund, then a
detached refund email spawn.  Unlike `ProcessOrder` the lookup error is
always wrapped as "failed to get user" (the wrapping preserves
`errors.Is` classification). -/
def refundOrder (d : OrderDeps) (req : RefundOrderRequest) :
    GoResult RefundResponse × List OrderEvent :=
  match d.getUser req.UserID with
  | .panics m => (.panics m, [.getUserCall req.UserID])
  | .err e => (.err (.wrap "failed to get user" e), [.getUserCall req.UserID])
  | .ok user =>
    match d.refundPayment req.PaymentID with
    | .panics m =>
        (.panics m, [.getUserCall req.UserID, .refundCall req.PaymentID])
    | .err e =>
        (.err (.wrap "refund processing failed" e),
         [.getUserCall req.UserID, .refundCall req.PaymentID])
    | .ok refund =>
        (.ok refund,
         [.getUserCall req.UserID, .refundCall req.PaymentID,
          .spawnRefundEmail (refundEmail user req.PaymentID refund.ID)])

/-! ## JSON serialization of `entity.User`
(struct tags on `internal/domain/entity/user.go`) -/

/-- One struct field with its `json` tag, as `encoding/json` sees it. -/
structure JSONField (α : Type) where
  goName : String
  jsonTag : String
  render : α → JValue

/-- The fields of `entity.User` in declaration order with their source
`json` tags.  `Password` carries the tag `"-"`.  Timestamps are rendered
through an injective placeholder for the RFC3339 encoding of `time.Time`
(its exact text is irrelevant to every claim here). -/
def userJSONFields : List (JSONField User) :=
  [⟨"ID", "id", fun u => JValue.num (Frac.ofInt u.ID)⟩,
   ⟨"Username", "username", fun u => JValue.str u.Username⟩,
   ⟨"Email", "email", fun u => JValue.str u.Email⟩,
   ⟨"Password", "-", fun u => JValue.str u.Password⟩,
   ⟨"CreatedAt", "created_at", fun u => JValue.str ("rfc3339:" ++ toString u.CreatedAt)⟩,
   ⟨"UpdatedAt", "updated_at", fun u => JValue.str ("rfc3339:" ++ toString u.UpdatedAt)⟩]

/-- `encoding/json` marshalling of a struct: fields in declaration order,
keyed by their tag; a field tagged `"-"` is skipped entirely. -/
def marshalStruct {α : Type} (fields : List (JSONField α)) (a : α) : JObject :=
  fields.foldr
    (fun f acc => if f.jsonTag = "-" then acc else (f.jsonTag, f.render a) :: acc) []

/-- The outward JSON object for a user, as produced by the login response
(`LoginResponse.User`) and the profile endpoint, both of which marshal
`*entity.User` with these tags. -/
def marshalUser (u : User) : JObject := marshalStruct userJSONFields u

/-! ## Helper lemmas -/

theorem isErr_bind_false {α β : Type} {x : GoResult α} {f : α → GoResult β}
    (hx : x.isErr = false) (hf : ∀ a, (f a).isErr = false) :
    (x.bind f).isErr = false := by
  cases x <;> simp_all [GoResult.bind, GoResult.isErr]

theorem assertString_not_err (v : Option JValue) : (assertString v).isErr = false := by
  rcases v with _ | j
  · rfl
  · cases j <;> rfl

theorem assertNumber_not_err (v : Option JValue) : (assertNumber v).isErr = false := by
  rcases v with _ | j
  · rfl
  · cases j <;> rfl

theorem assertArray_not_err (v : Option JValue) : (assertArray v).isErr = false := by
  rcases v with _ | j
  · rfl
  · cases j <;> rfl

theorem assertObject_not_err (v : Option JValue) : (assertObject v).isErr = false := by
  rcases v with _ | j
  · rfl
  · cases j <;> rfl

theorem assertObjectV_not_err (j : JValue) : (assertObjectV j).isErr = false := by
  cases j <;> rfl

theorem indexArray_not_err (xs : List JValue) (i : ℕ) :
    (indexArray xs i).isErr = false := by
  unfold indexArray
  cases xs.get? i <;> rfl

/-! ## Concrete fixtures (used by the witness theorems) -/

def testUser : User :=
  { ID := 1, Username := "alice", Email := "alice@example.com"
    Password := "bcrypt-hash", CreatedAt := 1700000000, UpdatedAt := 1700000000 }

def okIntent : PaymentIntent :=
  { ID := "pi_test", ClientSecret := "pi_secret", Status := "requires_confirmation" }

def okPayment : PaymentResponse :=
  { ID := "ch_test", Status := "succeeded", Amount := goFloatLit 9999 100
    Currency := "usd", TransactionID := "txn_test", CreatedAt := 1700000000
    Metadata := none }

def okRefund : RefundResponse :=
  { ID := "re_test", PaymentID := "ch_test", Amount := goFloatLit 9999 100
    Status := "succeeded", CreatedAt := 1700000000 }

def testEmailResp : EmailResponse :=
  { ID := "em_test", Status := "sent", SentAt := 1700000000, MessageID := "msg_test" }

/-- A test double where every collaborator succeeds. -/
def happyDeps : OrderDeps :=
  { getUser := fun _ => .ok testUser
    createPaymentIntent := fun _ => .ok okIntent
    processPayment := fun _ => .ok okPayment
    refundPayment := fun _ => .ok okRefund
    sendEmail := fun _ => .ok testEmailResp }

/-- A test double whose `ProcessPayment` always fails. -/
def failPayDeps : OrderDeps :=
  { happyDeps with processPayment := fun _ => .err (.errMsg "card declined") }

/-- A test double whose `CreatePaymentIntent` always fails. -/
def failIntentDeps : OrderDeps :=
  { happyDeps with createPaymentIntent := fun _ => .err (.errMsg "intent rejected") }

/-- A test double backed by an empty users table. -/
def emptyStoreDeps : OrderDeps :=
  { happyDeps with getUser := repoGetByID [] }

def testOrderReq : CreateOrderRequest :=
  { OrderID := "order-1", UserID := 1, Amount := goFloatLit 9999 100
    Currency := "usd", UserEmail := "alice@example.com" }

def testRefundReq : RefundOrderRequest :=
  { PaymentID := "ch_test", UserID := 1, Reason := "requested by customer" }

def testTokenResp : TokenResponse := { accessToken := "token-one", expiresIn := 3600 }

def testTokenResp2 : TokenResponse := { accessToken := "token-two", expiresIn := 3600 }

/-! ## Claim theorems -/

/-- C1: the Stripe-style adapter puts `int(req.Amount * 100)` on the wire
and the parsed response divides the echoed integer by 100.  For the
spec's example the round-trip is exact (99.99 wires as 9999 and comes
back as 99.99), but the universal claim is false on the code: for the
valid amount 4.35 (a float64 slightly below 4.35) the float64 product
435.00 is computed as 434.99999999999994 and the `int` conversion
truncates it to 434, so the customer is charged 434 cents and the
round-tripped `PaymentResponse.Amount` is 4.34, not the original input.
This contradicts the source's own "Convert to cents" intent and the
spec's universally quantified round-trip property. -/
theorem stripe_cents_conversion_truncates :
    (∀ req : PaymentRequest,
      jlookup (stripeChargePayload req) "amount"
        = some (JValue.num (Frac.ofInt (stripeWireAmount req.Amount))))
    ∧ stripeWireAmount (goFloatLit 9999 100) = 9999
    ∧ stripeRoundTripAmount (goFloatLit 9999 100) = goFloatLit 9999 100
    ∧ stripeWireAmount (goFloatLit 435 100) = 434
    ∧ stripeRoundTripAmount (goFloatLit 435 100) ≠ goFloatLit 435 100
    ∧ parsedAmount
        (parsePaymentResponse 200
          (some (stripeEchoBody (stripeWireAmount (goFloatLit 435 100)))))
        = some (goFloatLit 434 100)
    ∧ goFloatLit 434 100 ≠ goFloatLit 435 100 := by
  refine ⟨fun req => ?_, by decide, by decide, by decide, by decide, by decide, by decide⟩
  unfold stripeChargePayload jlookup
  split <;> rfl

/-- C2: when the user lookup and the payment intent succeed but
`ProcessPayment` always fails, `ProcessOrder` returns a (wrapped) terminal
error, the payment-failure notification goroutine is spawned exactly once,
and the caller's entire result is invariant under any change of the email
collaborator: the detached dispatch's outcome can neither be waited on nor
observed by the request. -/
theorem order_payment_failure_notifies_once (now : ℤ) (d : OrderDeps)
    (req : CreateOrderRequest) (user : User) (intent : PaymentIntent) (e : GoErr)
    (hu : d.getUser req.UserID = .ok user)
    (hi : ∀ r, d.createPaymentIntent r = .ok intent)
    (hp : ∀ r, d.processPayment r = .err e) :
    (processOrder now d req).1 = .err (.wrap "payment processing failed" e)
    ∧ ((processOrder now d req).2.map OrderEvent.kind).count OrderEventKind.notifyFailure = 1
    ∧ ∀ f, processOrder now { d with sendEmail := f } req = processOrder now d req := by
  refine ⟨?_, ?_, fun f => rfl⟩ <;>
    simp [processOrder, hu, hi, hp, OrderEvent.kind, List.count_cons]

/-- C3: when the user exists and every Payment capability call succeeds,
`ProcessOrder` returns an `OrderResponse` with status "completed" carrying
the request's order id, amount and currency, the payment and
payment-intent ids, and the user snapshot; the failure-notification path
is never spawned. -/
theorem order_success_completed (now : ℤ) (d : OrderDeps)
    (req : CreateOrderRequest) (user : User) (intent : PaymentIntent)
    (pay : PaymentResponse)
    (hu : d.getUser req.UserID = .ok user)
    (hi : ∀ r, d.createPaymentIntent r = .ok intent)
    (hp : ∀ r, d.processPayment r = .ok pay) :
    (∃ resp, (processOrder now d req).1 = .ok resp
      ∧ resp.Status = "completed"
      ∧ resp.OrderID = req.OrderID
      ∧ resp.Amount = req.Amount
      ∧ resp.Currency = req.Currency
      ∧ resp.PaymentID = pay.ID
      ∧ resp.PaymentIntentID = intent.ID
      ∧ resp.User = user)
    ∧ ∀ ev ∈ (processOrder now d req).2, ev.kind ≠ OrderEventKind.notifyFailure := by
  constructor
  · refine ⟨{ OrderID := req.OrderID, PaymentID := pay.ID, PaymentIntentID := intent.ID,
              Status := "completed", Amount := req.Amount, Currency := req.Currency,
              ProcessedAt := now, User := user },
            ?_, rfl, rfl, rfl, rfl, rfl, rfl, rfl⟩
    simp [processOrder, hu, hi, hp]
  · intro ev hev
    simp only [processOrder, hu, hi, hp, List.mem_cons, List.not_mem_nil, or_false] at hev
    rcases hev with rfl | rfl | rfl | rfl <;> simp [OrderEvent.kind]

/-- C5: when payment-intent creation fails, `ProcessOrder` returns a
terminal error, never calls `ProcessPayment`, and spawns no notification
of any kind (no success email and no failure email). -/
theorem order_intent_failure_no_charge_no_notification (now : ℤ) (d : OrderDeps)
    (req : CreateOrderRequest) (user : User) (e : GoErr)
    (hu : d.getUser req.UserID = .ok user)
    (hi : ∀ r, d.createPaymentIntent r = .err e) :
    (processOrder now d req).1 = .err (.wrap "failed to create payment intent" e)
    ∧ ∀ ev ∈ (processOrder now d req).2,
        ev.kind ≠ OrderEventKind.processPayment
        ∧ ev.kind ≠ OrderEventKind.notifyFailure
        ∧ ev.kind ≠ OrderEventKind.notifyConfirmation
        ∧ ev.kind ≠ OrderEventKind.notifyRefund := by
  constructor
  · simp [processOrder, hu, hi]
  · intro ev hev
    simp only [processOrder, hu, hi, List.mem_cons, List.not_mem_nil, or_false] at hev
    rcases hev with rfl | rfl <;> simp [OrderEvent.kind]

/-- Witness for C2 at a concrete test double whose charge always fails. -/
theorem order_payment_failure_notifies_once_witness :
    (processOrder 0 failPayDeps testOrderReq).1
      = .err (.wrap "payment processing failed" (.errMsg "card declined"))
    ∧ ((processOrder 0 failPayDeps testOrderReq).2.map OrderEvent.kind).count
        OrderEventKind.notifyFailure = 1
    ∧ ∀ f, processOrder 0 { failPayDeps with sendEmail := f } testOrderReq
        = processOrder 0 failPayDeps testOrderReq :=
  order_payment_failure_notifies_once 0 failPayDeps testOrderReq testUser okIntent
    (.errMsg "card declined") rfl (fun _ => rfl) (fun _ => rfl)

/-- Witness for C3 at a concrete all-success test double. -/
theorem order_success_completed_witness :
    (∃ resp, (processOrder 0 happyDeps testOrderReq).1 = .ok resp
      ∧ resp.Status = "completed"
      ∧ resp.OrderID = testOrderReq.OrderID
      ∧ resp.Amount = testOrderReq.Amount
      ∧ resp.Currency = testOrderReq.Currency
      ∧ resp.PaymentID = okPayment.ID
      ∧ resp.PaymentIntentID = okIntent.ID
      ∧ resp.User = testUser)
    ∧ ∀ ev ∈ (processOrder 0 happyDeps testOrderReq).2,
        ev.kind ≠ OrderEventKind.notifyFailure :=
  order_success_completed 0 happyDeps testOrderReq testUser okIntent okPayment
    rfl (fun _ => rfl) (fun _ => rfl)

/-- Witness for C5 at a concrete test double whose intent creation fails. -/
theorem order_intent_failure_no_charge_no_notification_witness :
    (processOrder 0 failIntentDeps testOrderReq).1
      = .err (.wrap "failed to create payment intent" (.errMsg "intent rejected"))
    ∧ ∀ ev ∈ (processOrder 0 failIntentDeps testOrderReq).2,
        ev.kind ≠ OrderEventKind.processPayment
        ∧ ev.kind ≠ OrderEventKind.notifyFailure
        ∧ ev.kind ≠ OrderEventKind.notifyConfirmation
        ∧ ev.kind ≠ OrderEventKind.notifyRefund :=
  order_intent_failure_no_charge_no_notification 0 failIntentDeps testOrderReq
    testUser (.errMsg "intent rejected") rfl (fun _ => rfl)

/-- C6: a refund request for a user id absent from the users table is
rejected with the (wrapped) `ErrUserNotFound` sentinel — still recognized
as NotFound by `errors.Is` — and the vendor refund call is never made:
the user lookup strictly precedes it. -/
theorem refund_unknown_user_not_found_before_vendor (d : OrderDeps)
    (store : List User) (req : RefundOrderRequest)
    (hg : d.getUser = repoGetByID store)
    (habs : ∀ u ∈ store, u.ID ≠ req.UserID) :
    (∃ e, (refundOrder d req).1 = .err e ∧ isUserNotFound e = true)
    ∧ ∀ ev ∈ (refundOrder d req).2, ev.kind ≠ OrderEventKind.refund := by
  have hfind : store.find? (fun u => u.ID == req.UserID) = none := by
    rw [List.find?_eq_none]
    intro u hu
    simpa using habs u hu
  have hget : d.getUser req.UserID = .err .userNotFound := by
    rw [hg]
    unfold repoGetByID
    rw [hfind]
  constructor
  · exact ⟨.wrap "failed to get user" .userNotFound, by simp [refundOrder, hget], rfl⟩
  · intro ev hev
    simp only [refundOrder, hget, List.mem_cons, List.not_mem_nil, or_false] at hev
    subst hev
    simp [OrderEvent.kind]

/-- Witness for C6 over an empty users table. -/
theorem refund_unknown_user_not_found_before_vendor_witness :
    (∃ e, (refundOrder emptyStoreDeps testRefundReq).1 = .err e
      ∧ isUserNotFound e = true)
    ∧ ∀ ev ∈ (refundOrder emptyStoreDeps testRefundReq).2,
        ev.kind ≠ OrderEventKind.refund :=
  refund_unknown_user_not_found_before_vendor emptyStoreDeps [] testRefundReq rfl
    (by intro u hu; cases hu)

/-- C7: for any collaborators and any single inbound order or refund
request, every externally observable step (user lookup, payment-intent
creation, charge, refund, and each notification spawn, each of which
performs exactly one email send) occurs at most once in the request's
trace: the kinds of the trace events are pairwise distinct, whatever each
step returns. -/
theorem vendor_calls_at_most_once (now : ℤ) (d : OrderDeps)
    (oreq : CreateOrderRequest) (rreq : RefundOrderRequest) :
    ((processOrder now d oreq).2.map OrderEvent.kind).Nodup
    ∧ ((refundOrder d rreq).2.map OrderEvent.kind).Nodup := by
  constructor
  · unfold processOrder
    rcases hg : d.getUser oreq.UserID with user | e | m
    · rcases hi : d.createPaymentIntent
        { Amount := oreq.Amount, Currency := oreq.Currency,
          CustomerID := toString user.ID,
          Description := "Order for user " ++ user.Username } with intent | e | m
      · rcases hp : d.processPayment
          { OrderID := oreq.OrderID, Amount := oreq.Amount, Currency := oreq.Currency,
            Description := "Order " ++ oreq.OrderID ++ " for " ++ user.Username,
            CustomerID := toString user.ID,
            Metadata := [("user_id", JValue.num (Frac.ofInt user.ID)),
                         ("username", JValue.str user.Username),
                         ("order_id", JValue.str oreq.OrderID)] } with pay | e | m <;>
          simp [hi, hp, OrderEvent.kind]
      · simp [hi, OrderEvent.kind]
      · simp [hi, OrderEvent.kind]
    · simp [OrderEvent.kind, apply_ite]
    · simp [OrderEvent.kind]
  · unfold refundOrder
    rcases hg : d.getUser rreq.UserID with user | e | m
    · rcases hr : d.refundPayment rreq.PaymentID with refund | e | m <;>
        simp [hr, OrderEvent.kind]
    · simp [OrderEvent.kind]
    · simp [OrderEvent.kind]

/-- C4: a PayPal access token obtained at `t0` with `expires_in = 3600`
(and a nonempty token string) is cached with expiry `t0 + 3540`; every
call strictly before that instant reuses the cached token without a token
request, and every call at or after it performs a fresh client-credentials
refresh before the vendor call, with no caller involvement. -/
theorem paypal_token_cached_until_refresh_window (t0 t : ℤ)
    (r r2 : TokenResponse) (hTok : r.accessToken ≠ "") (hExp : r.expiresIn = 3600) :
    ((refreshAccessToken t0 r).tokenExpiry = t0 + 3540)
    ∧ (t < t0 + 3540 →
        ensureValidToken t r2 (refreshAccessToken t0 r) = (refreshAccessToken t0 r, false))
    ∧ (t0 + 3540 ≤ t →
        ensureValidToken t r2 (refreshAccessToken t0 r) = (refreshAccessToken t r2, true)) := by
  have hexp : (refreshAccessToken t0 r).tokenExpiry = t0 + 3540 := by
    simp [refreshAccessToken, hExp]
  refine ⟨hexp, fun hlt => ?_, fun hge => ?_⟩
  · rw [ensureValidToken, if_pos]
    exact ⟨hTok, by rw [hexp]; exact hlt⟩
  · rw [ensureValidToken, if_neg]
    intro hcon
    rw [hexp] at hcon
    omega

/-- Witness for C4: a token obtained at time 0 is reused at time 10 and
refreshed at time 3540. -/
theorem paypal_token_cached_until_refresh_window_witness :
    ((refreshAccessToken 0 testTokenResp).tokenExpiry = 0 + 3540)
    ∧ ensureValidToken 10 testTokenResp2 (refreshAccessToken 0 testTokenResp)
        = (refreshAccessToken 0 testTokenResp, false)
    ∧ ensureValidToken 3540 testTokenResp2 (refreshAccessToken 0 testTokenResp)
        = (refreshAccessToken 3540 testTokenResp2, true) :=
  ⟨(paypal_token_cached_until_refresh_window 0 10 testTokenResp testTokenResp2
      (by decide) rfl).1,
   (paypal_token_cached_until_refresh_window 0 10 testTokenResp testTokenResp2
      (by decide) rfl).2.1 (by decide),
   (paypal_token_cached_until_refresh_window 0 3540 testTokenResp testTokenResp2
      (by decide) rfl).2.2 (by decide)⟩

/-- C8: once a vendor body has decoded and the status code is the success
code, the adapters' parse functions can no longer return a normalized
error: for every decoded body — including ones lacking `id`, `status`,
`amount`, `balance_transaction` or the nested
`purchase_units[0].payments.captures[0]` path, or carrying them at wrong
types — the outcome is either success or a runtime type-assertion /
index panic, never a returned `VendorError`; on the empty object both
parsers panic. -/
theorem vendor_parse_malformed_panics_not_error :
    (∀ m : JObject, (parsePaymentResponse 200 (some m)).isErr = false)
    ∧ (∀ (now : ℤ) (m : JObject), (parseCaptureResponse now 201 (some m)).isErr = false)
    ∧ (parsePaymentResponse 200 (some [])).isPanics = true
    ∧ (∀ now : ℤ, (parseCaptureResponse now 201 (some [])).isPanics = true) := by
  refine ⟨fun m => ?_, fun now m => ?_, rfl, fun now => rfl⟩
  · show (parsePaymentResponse 200 (some m)).isErr = false
    simp only [parsePaymentResponse]
    rw [if_neg (by decide : ¬ (200 : ℕ) ≠ 200)]
    exact isErr_bind_false (assertString_not_err _) fun id =>
      isErr_bind_false (assertString_not_err _) fun status =>
      isErr_bind_false (assertNumber_not_err _) fun amt =>
      isErr_bind_false (assertString_not_err _) fun currency =>
      isErr_bind_false (assertString_not_err _) fun txn =>
      isErr_bind_false (assertNumber_not_err _) fun created => rfl
  · show (parseCaptureResponse now 201 (some m)).isErr = false
    simp only [parseCaptureResponse]
    rw [if_neg (by decide : ¬ (201 : ℕ) ≠ 201)]
    exact isErr_bind_false (assertArray_not_err _) fun purchaseUnits =>
      isErr_bind_false (indexArray_not_err _ _) fun firstRaw =>
      isErr_bind_false (assertObjectV_not_err _) fun firstUnit =>
      isErr_bind_false (assertObject_not_err _) fun payments =>
      isErr_bind_false (assertArray_not_err _) fun captures =>
      isErr_bind_false (indexArray_not_err _ _) fun captureRaw =>
      isErr_bind_false (assertObjectV_not_err _) fun capture =>
      isErr_bind_false (assertObject_not_err _) fun amount =>
      isErr_bind_false (assertString_not_err _) fun id =>
      isErr_bind_false (assertString_not_err _) fun status =>
      isErr_bind_false (assertString_not_err _) fun value =>
      isErr_bind_false (assertString_not_err _) fun currencyCode =>
      isErr_bind_false (assertString_not_err _) fun topID => rfl

/-- C9: the push-notification stub returns, for every request, a non-error
response with zero successes and a failure count equal to the number of
device tokens, and performs no vendor call. -/
theorem push_stub_zero_success_all_failure (now : ℤ) (req : PushNotificationRequest) :
    ∃ resp, unifiedSendPushNotification now req = (.ok resp, [])
      ∧ resp.SuccessCount = 0
      ∧ resp.FailureCount = (req.DeviceTokens.length : ℤ)
      ∧ resp.Status = "not_implemented" :=
  ⟨_, rfl, rfl, rfl, rfl⟩

/-- C10: the outward JSON object for a user has exactly the keys `id`,
`username`, `email`, `created_at`, `updated_at` carrying the corresponding
field values; the `Password` field (json tag `"-"`) is never serialized,
so the object is unchanged under any alteration of the password hash. -/
theorem user_json_never_contains_password (u : User) :
    (marshalUser u).map Prod.fst = ["id", "username", "email", "created_at", "updated_at"]
    ∧ jlookup (marshalUser u) "id" = some (JValue.num (Frac.ofInt u.ID))
    ∧ jlookup (marshalUser u) "username" = some (JValue.str u.Username)
    ∧ jlookup (marshalUser u) "email" = some (JValue.str u.Email)
    ∧ ∀ p, marshalUser { u with Password := p } = marshalUser u :=
  ⟨rfl, rfl, rfl, rfl, fun _ => rfl⟩
